import Mathlib

/-!
# geoPatcher/parameters.c

A shallow embedding of the parameter registry of `parameters.c` and the
properties of its rule-table evaluation and of `parameters_init`.

The parameters are the global variables named by the macros `OFFSET`, `SIZE`,
`BLOCK_SIZE`, `COUNT_PER_BLOCK` and `STATIC_ADDRESS` and by the plain names
`kernel_slide_step`, ... ; the store is the state of all of them. The
initializers are `void (*)(void)` functions acting on that state. Integer
division by zero has no defined result in C and the source does not guard
against it: the embedding marks the point where a run reaches one, keeping the
store as it stood, and says nothing of what the machine does there.
-/

namespace GeoPatcher

/-! ## Data model -/

/-- The structure members for which `parameters.c` assigns an `OFFSET(type, member)`. -/
inductive Field where
  | filedesc__fd_ofiles
  | fileglob__fg_ops
  | fileglob__fg_data
  | fileproc__f_fglob
  | ipc_entry__ie_object
  | ipc_entry__ie_bits
  | ipc_entry__ie_request
  | ipc_port__ip_bits
  | ipc_port__ip_references
  | ipc_port__waitq_flags
  | ipc_port__imq_messages
  | ipc_port__imq_msgcount
  | ipc_port__imq_qlimit
  | ipc_port__ip_receiver
  | ipc_port__ip_kobject
  | ipc_port__ip_nsrequest
  | ipc_port__ip_requests
  | ipc_port__ip_mscount
  | ipc_port__ip_srights
  | ipc_port_request__ipr_soright
  | ipc_space__is_table_size
  | ipc_space__is_table
  | pipe__pipe_buffer
  | proc__p_pid
  | proc__p_ucred
  | proc__p_fd
  | ip6_pktopts__ip6po_pktinfo
  | ip6_pktopts__ip6po_minmtu
  | sysctl_oid__oid_parent
  | sysctl_oid__oid_link
  | sysctl_oid__oid_kind
  | sysctl_oid__oid_handler
  | sysctl_oid__oid_version
  | sysctl_oid__oid_refcnt
  | task__lck_mtx_type
  | task__ref_count
  | task__active
  | task__map
  | task__itk_space
  | task__bsd_info
  deriving DecidableEq

/-- The structures for which `parameters.c` assigns a `SIZE(type)`. -/
inductive Sized where
  | ipc_entry
  | ipc_port
  | ipc_port_request
  | ipc_voucher
  | ip6_pktopts
  | sysctl_oid
  deriving DecidableEq

/-- The structures for which `parameters.c` assigns a `BLOCK_SIZE(type)` and a
`COUNT_PER_BLOCK(type)`. -/
inductive Blocked where
  | ipc_port
  | ipc_voucher
  deriving DecidableEq

/-- The parameters (global variables) written by `parameters.c`. -/
inductive Key where
  | STATIC_ADDRESS_kernel_base
  | kernel_slide_step
  | message_size_for_kmsg_zone
  | kmsg_zone_size
  | max_ool_ports_per_message
  | gc_step
  | OFFSET (f : Field)
  | SIZE (t : Sized)
  | BLOCK_SIZE (t : Blocked)
  | COUNT_PER_BLOCK (t : Blocked)
  deriving DecidableEq

/-- The parameter store: the value of every parameter. The variables are
`size_t` / `uint64_t`; every constant assigned below fits in 64 bits and the only
arithmetic is a division, so no operation wraps. -/
abbrev Parameters := Key → Nat

/-- The assignment `key = value;` to one parameter. -/
def Parameters.assign (s : Parameters) (key : Key) (value : Nat) : Parameters :=
  fun k => if k = key then value else s k

/-- The store of a fresh process: static storage is zero-initialised. -/
def Parameters.zero : Parameters := fun _ => 0

/-- The global `platform` filled in by `platform_init()`. -/
structure Platform where
  machine : String
  osversion : String
  deriving DecidableEq

/-- The way a run can leave defined behaviour: an integer division by zero, with
the store at that moment. The source raises no error there; the mark stands for
the undefined behaviour of C, whatever the machine makes of it. -/
inductive Fault where
  | division_by_zero (store : Parameters)

/-- The type of `platform_matches(devices, builds)`, which reads the global
`platform`. The function itself is declared in `platform_match.h` and is taken as a
parameter throughout. -/
abbrev Matcher := Platform → String → String → Bool

/-- A struct describing an initialization. -/
structure initialization where
  devices : String
  builds : String
  init : Parameters → Except Fault Parameters

/-! ## Running a table -/

/-- The loop of `run_initializations`, from entry `i` on with the running
`match_count`. -/
def run_initializations.loop (platform_matches : Matcher) (platform : Platform) :
    List initialization → Nat → Parameters → Except Fault (Nat × Parameters)
  | [], match_count, s => .ok (match_count, s)
  | init :: rest, match_count, s =>
    if platform_matches platform init.devices init.builds then
      match init.init s with
      | .error e => .error e
      | .ok s1 => run_initializations.loop platform_matches platform rest (match_count + 1) s1
    else
      run_initializations.loop platform_matches platform rest match_count s

/-- Run initializations matching this platform. Returns the match count and the
store the initializers left. The table is the array `inits` with its `count` entries;
`match_count` never exceeds `count`, a `size_t`, so its increment does not wrap. -/
def run_initializations (platform_matches : Matcher) (platform : Platform)
    (inits : List initialization) (s : Parameters) : Except Fault (Nat × Parameters) :=
  run_initializations.loop platform_matches platform inits 0 s

/-! ## General system parameters -/

/-- Modelled from the spec: the macro `MB` of `parameters.h`, which is not part of
the sources; a megabyte, taken as 1024 * 1024 bytes. -/
def MB : Nat := 1024 * 1024

/-- Initialization for general system parameters. -/
def init__system_parameters (s : Parameters) : Except Fault Parameters :=
  let s := s.assign .STATIC_ADDRESS_kernel_base 0xFFFFFFF007004000
  let s := s.assign .kernel_slide_step 0x1000
  let s := s.assign .message_size_for_kmsg_zone 76
  let s := s.assign .kmsg_zone_size 256
  let s := s.assign .max_ool_ports_per_message 16382
  let s := s.assign .gc_step (2 * MB)
  .ok s

/-- A list of general system parameter initializations by platform. -/
def system_parameters : List initialization :=
  [ { devices := "*", builds := "*", init := init__system_parameters } ]

/-! ## Offset initialization -/

/-- Initialization for iPhone8,2 16E227 (and similar devices). -/
def offsets__iphone8_2__16E227 (s : Parameters) : Except Fault Parameters :=
  let s := s.assign (.OFFSET .filedesc__fd_ofiles) 0

  let s := s.assign (.OFFSET .fileglob__fg_ops) 0x28
  let s := s.assign (.OFFSET .fileglob__fg_data) 0x38

  let s := s.assign (.OFFSET .fileproc__f_fglob) 8

  let s := s.assign (.SIZE .ipc_entry) 0x18
  let s := s.assign (.OFFSET .ipc_entry__ie_object) 0
  let s := s.assign (.OFFSET .ipc_entry__ie_bits) 8
  let s := s.assign (.OFFSET .ipc_entry__ie_request) 16

  let s := s.assign (.SIZE .ipc_port) 0xa8
  let s := s.assign (.BLOCK_SIZE .ipc_port) 0x4000
  let s := s.assign (.OFFSET .ipc_port__ip_bits) 0
  let s := s.assign (.OFFSET .ipc_port__ip_references) 4
  let s := s.assign (.OFFSET .ipc_port__waitq_flags) 24
  let s := s.assign (.OFFSET .ipc_port__imq_messages) 64
  let s := s.assign (.OFFSET .ipc_port__imq_msgcount) 80
  let s := s.assign (.OFFSET .ipc_port__imq_qlimit) 82
  let s := s.assign (.OFFSET .ipc_port__ip_receiver) 96
  let s := s.assign (.OFFSET .ipc_port__ip_kobject) 104
  let s := s.assign (.OFFSET .ipc_port__ip_nsrequest) 112
  let s := s.assign (.OFFSET .ipc_port__ip_requests) 128
  let s := s.assign (.OFFSET .ipc_port__ip_mscount) 156
  let s := s.assign (.OFFSET .ipc_port__ip_srights) 160

  let s := s.assign (.SIZE .ipc_port_request) 0x10
  let s := s.assign (.OFFSET .ipc_port_request__ipr_soright) 0

  let s := s.assign (.OFFSET .ipc_space__is_table_size) 0x14
  let s := s.assign (.OFFSET .ipc_space__is_table) 0x20

  let s := s.assign (.SIZE .ipc_voucher) 0x50
  let s := s.assign (.BLOCK_SIZE .ipc_voucher) 0x4000

  let s := s.assign (.OFFSET .pipe__pipe_buffer) 0x10

  let s := s.assign (.OFFSET .proc__p_pid) 0x60
  let s := s.assign (.OFFSET .proc__p_ucred) 0xf8
  let s := s.assign (.OFFSET .proc__p_fd) 0x100

  let s := s.assign (.SIZE .ip6_pktopts) 192
  let s := s.assign (.OFFSET .ip6_pktopts__ip6po_pktinfo) 16
  let s := s.assign (.OFFSET .ip6_pktopts__ip6po_minmtu) 180

  let s := s.assign (.SIZE .sysctl_oid) 0x50
  let s := s.assign (.OFFSET .sysctl_oid__oid_parent) 0x0
  let s := s.assign (.OFFSET .sysctl_oid__oid_link) 0x8
  let s := s.assign (.OFFSET .sysctl_oid__oid_kind) 0x14
  let s := s.assign (.OFFSET .sysctl_oid__oid_handler) 0x30
  let s := s.assign (.OFFSET .sysctl_oid__oid_version) 0x48
  let s := s.assign (.OFFSET .sysctl_oid__oid_refcnt) 0x4c

  let s := s.assign (.OFFSET .task__lck_mtx_type) 0xb
  let s := s.assign (.OFFSET .task__ref_count) 0x10
  let s := s.assign (.OFFSET .task__active) 0x14
  let s := s.assign (.OFFSET .task__map) 0x20
  let s := s.assign (.OFFSET .task__itk_space) 0x300
  let s := s.assign (.OFFSET .task__bsd_info) 0x358
  .ok s

/-- Unsigned division `a / b` of two `size_t` values: for a non-zero divisor the
quotient truncated toward zero. For a zero divisor C defines no result and the
source tests nothing: the run is marked as having reached the division, with the
store `s` it was reached with. -/
def udiv (s : Parameters) (a b : Nat) : Except Fault Nat :=
  if b = 0 then .error (.division_by_zero s) else .ok (a / b)

/-- Initialize offset parameters whose values are computed from other parameters. -/
def initialize_computed_offsets (s : Parameters) : Except Fault Parameters :=
  match udiv s (s (.BLOCK_SIZE .ipc_port)) (s (.SIZE .ipc_port)) with
  | .error e => .error e
  | .ok q =>
    let s := s.assign (.COUNT_PER_BLOCK .ipc_port) q
    match udiv s (s (.BLOCK_SIZE .ipc_voucher)) (s (.SIZE .ipc_voucher)) with
    | .error e => .error e
    | .ok q =>
      let s := s.assign (.COUNT_PER_BLOCK .ipc_voucher) q
      .ok s

/-- A list of offset initializations by platform. -/
def offsets : List initialization :=
  [ { devices := "*", builds := "*", init := offsets__iphone8_2__16E227 },
    { devices := "*", builds := "*", init := initialize_computed_offsets } ]

/-- The minimum number of offsets that must match in order to declare a platform
initialized. -/
def min_offsets : Nat := 2

/-! ## Public API -/

/-- The function `parameters_init()`. `platform` is the general platform info
obtained by `platform_init()`; the result is the returned boolean with the store
left behind. The diagnostic printed on failure is not part of the state. -/
def parameters_init (platform_matches : Matcher) (platform : Platform) (s : Parameters) :
    Except Fault (Bool × Parameters) :=
  -- Initialize general system parameters.
  match run_initializations platform_matches platform system_parameters s with
  | .error e => .error e
  | .ok (_, s) =>
    -- Initialize offsets.
    match run_initializations platform_matches platform offsets s with
    | .error e => .error e
    | .ok (count, s) =>
      if count < min_offsets then .ok (false, s) else .ok (true, s)

/-- Reading a parameter: the macros name plain variables, so the read is the
value the store holds. -/
def Parameters.read (s : Parameters) (key : Key) : Except Fault Nat :=
  .ok (s key)

/-! ## The matcher of the specification -/

/-- Modelled from the spec: the pattern matcher of `platform_match.h`, which is not
part of the sources. The wildcard sentinel matches any value; any other pattern
matches exactly the equal string. -/
def pattern_matches (pattern value : String) : Bool :=
  pattern == "*" || pattern == value

/-- Modelled from the spec: `platform_matches` of `platform_match.h`, which is not
part of the sources. A rule matches when its device pattern matches the machine and
its build pattern matches the OS build. -/
def spec_platform_matches : Matcher :=
  fun platform devices builds =>
    pattern_matches devices platform.machine && pattern_matches builds platform.osversion

/-! ## Concrete inputs -/

/-- The platform the offsets were taken from: an iPhone8,2 running build 16E227. -/
def iphone8_2__16E227 : Platform := { machine := "iPhone8,2", osversion := "16E227" }

/-- The store `parameters_init` leaves on that platform, started from a fresh process,
under the matcher of the specification. -/
def populated_store : Parameters :=
  match parameters_init spec_platform_matches iphone8_2__16E227 Parameters.zero with
  | .ok (_, t) => t
  | .error (.division_by_zero t) => t

/-- A platform no offsets were taken from. -/
def unknown_platform : Platform := { machine := "iPhoneUnknown,1", osversion := "ZZ000Z" }

/-- A default rule: on every device and build, `SIZE(ipc_port) = 1`. -/
def rule_default : initialization :=
  { devices := "*", builds := "*", init := fun s => .ok (s.assign (.SIZE .ipc_port) 1) }

/-- An override for one device: on an iPhone8,2 of any build, `SIZE(ipc_port) = 2`. -/
def rule_override : initialization :=
  { devices := "iPhone8,2", builds := "*",
    init := fun s => .ok (s.assign (.SIZE .ipc_port) 2) }

/-- A rule for another device, writing the same parameter. -/
def rule_other_device : initialization :=
  { devices := "iPhone12,3", builds := "*",
    init := fun s => .ok (s.assign (.SIZE .ipc_port) 3) }

/-- A matcher that accepts no rule. -/
def matches_nothing : Matcher := fun _ _ _ => false

/-- The store of a fresh process after the general system parameters alone. -/
def system_store : Parameters :=
  match init__system_parameters Parameters.zero with
  | .ok t => t
  | .error (.division_by_zero t) => t

/-! ## The drivers of the specification -/

/-- The base-offset rules, as the specification separates them from the derived
ones: the entries of `offsets` whose initializer stores platform data. -/
def base_offset_rules : List initialization :=
  [ { devices := "*", builds := "*", init := offsets__iphone8_2__16E227 } ]

/-- The derived rules, as the specification separates them from the base-offset
ones: the entries of `offsets` whose initializer computes from stored parameters. -/
def derived_rules : List initialization :=
  [ { devices := "*", builds := "*", init := initialize_computed_offsets } ]

/-- The policy constant of the specification's quorum decision. -/
def minimumQuorum : Nat := 2

/-- The Registry Driver in the words of the specification: apply the general rules,
evaluate only the base-offset rules and record their match count `c`; if
`c < minimumQuorum` fail without running any derived rule, otherwise run the derived
rules and succeed. -/
def spec_two_phase_driver (platform_matches : Matcher) (platform : Platform)
    (s : Parameters) : Except Fault (Bool × Parameters) :=
  match run_initializations platform_matches platform system_parameters s with
  | .error e => .error e
  | .ok (_, s) =>
    match run_initializations platform_matches platform base_offset_rules s with
    | .error e => .error e
    | .ok (c, s) =>
      if c < minimumQuorum then .ok (false, s)
      else
        match run_initializations platform_matches platform derived_rules s with
        | .error e => .error e
        | .ok (_, s) => .ok (true, s)

/-- The driver with the quorum taken over base and derived rules together: apply the
general rules, evaluate the base-offset rules and then the derived rules, record the
sum `c` of their match counts, and fail if `c < minimumQuorum`, succeed otherwise. -/
def spec_single_pass_driver (platform_matches : Matcher) (platform : Platform)
    (s : Parameters) : Except Fault (Bool × Parameters) :=
  match run_initializations platform_matches platform system_parameters s with
  | .error e => .error e
  | .ok (_, s) =>
    match run_initializations platform_matches platform base_offset_rules s with
    | .error e => .error e
    | .ok (c1, s) =>
      match run_initializations platform_matches platform derived_rules s with
      | .error e => .error e
      | .ok (c2, s) =>
        if c1 + c2 < minimumQuorum then .ok (false, s) else .ok (true, s)

/-- A store with both element sizes non-zero and block sizes that are not multiples of
them: `BLOCK_SIZE(ipc_port) = 10`, `SIZE(ipc_port) = 3`, `BLOCK_SIZE(ipc_voucher) = 7`,
`SIZE(ipc_voucher) = 8`, everything else zero. -/
def sample_store : Parameters :=
  (((Parameters.zero.assign (.BLOCK_SIZE .ipc_port) 10).assign (.SIZE .ipc_port) 3).assign
    (.BLOCK_SIZE .ipc_voucher) 7).assign (.SIZE .ipc_voucher) 8

/-! # Properties -/

/-! ## Evaluation of a rule table -/

/-- The loop of `run_initializations` started with count `n`: the matching entries are
applied in order, and the count grows by their number. -/
theorem loop_eq_foldlM (pm : Matcher) (p : Platform) (T : List initialization) :
    ∀ (n : Nat) (s : Parameters),
      run_initializations.loop pm p T n s =
        ((T.filter fun e => pm p e.devices e.builds).foldlM
            (fun (st : Parameters) (e : initialization) => e.init st) s).map
          (fun s1 => (n + (T.filter fun e => pm p e.devices e.builds).length, s1)) := by
  induction T with
  | nil => intro n s; rfl
  | cons e T ih =>
    intro n s
    by_cases h : pm p e.devices e.builds = true
    · simp only [run_initializations.loop, h, if_true, List.filter_cons_of_pos,
        List.foldlM_cons, List.length_cons]
      cases he : e.init s with
      | error f => rfl
      | ok s1 =>
        simp only [ih (n + 1) s1, bind, Except.bind]
        congr 1
        funext s2
        congr 1
        omega
    · have h0 : pm p e.devices e.builds = false := by simpa using h
      simp only [run_initializations.loop, h0, Bool.false_eq_true, if_false]
      rw [List.filter_cons_of_neg (by simp [h0])]
      exact ih n s

/-- A sequence of initializers that all return is a plain left fold. -/
theorem foldlM_init_eq_foldl (f : initialization → Parameters → Parameters)
    (L : List initialization) :
    ∀ s : Parameters, (∀ e ∈ L, ∀ st, e.init st = .ok (f e st)) →
      L.foldlM (fun (st : Parameters) (e : initialization) => e.init st) s =
        .ok (L.foldl (fun st e => f e st) s) := by
  induction L with
  | nil => intro s _; rfl
  | cons e L ih =>
    intro s h
    simp only [List.foldlM_cons, List.foldl_cons, h e (List.mem_cons_self e L) s, bind,
      Except.bind]
    exact ih (f e s) fun e1 he1 st => h e1 (List.mem_cons_of_mem e he1) st

/-- C1. For every table, matcher, platform and initial store, `run_initializations`
applies exactly the initializers of the entries whose pattern pair the matcher accepts,
in table order, every matching entry firing, and the count it returns is the number of
accepted entries. When the initializers all return (`f e` is the effect of entry `e`),
the final store is the left fold of the accepted entries over the initial store. -/
theorem run_initializations_fires_exactly_matching (pm : Matcher) (p : Platform)
    (T : List initialization) (s : Parameters) :
    run_initializations pm p T s =
        ((T.filter fun e => pm p e.devices e.builds).foldlM
            (fun (st : Parameters) (e : initialization) => e.init st) s).map
          (fun s1 => ((T.filter fun e => pm p e.devices e.builds).length, s1))
    ∧ ∀ f : initialization → Parameters → Parameters,
        (∀ e ∈ T, ∀ st, e.init st = .ok (f e st)) →
        run_initializations pm p T s =
          .ok ((T.filter fun e => pm p e.devices e.builds).length,
               (T.filter fun e => pm p e.devices e.builds).foldl (fun st e => f e st) s) := by
  have h1 := loop_eq_foldlM pm p T 0 s
  simp only [Nat.zero_add] at h1
  refine ⟨h1, fun f hf => ?_⟩
  unfold run_initializations
  rw [h1, foldlM_init_eq_foldl f _ s fun e he st => hf e (List.mem_of_mem_filter he) st]
  rfl

/-! ## The two tables of `parameters_init` -/

/-- The general initializer always returns. -/
theorem init__system_parameters_ok (s : Parameters) :
    ∃ t, init__system_parameters s = .ok t := ⟨_, rfl⟩

/-- The base offsets initializer always returns, and leaves the sizes and block sizes
of `ipc_port` and `ipc_voucher` at their constants. -/
theorem offsets__iphone8_2__16E227_ok (s : Parameters) :
    ∃ t, offsets__iphone8_2__16E227 s = .ok t ∧
      t (.SIZE .ipc_port) = 0xa8 ∧ t (.BLOCK_SIZE .ipc_port) = 0x4000 ∧
      t (.SIZE .ipc_voucher) = 0x50 ∧ t (.BLOCK_SIZE .ipc_voucher) = 0x4000 :=
  ⟨_, rfl, rfl, rfl, rfl, rfl⟩

/-- With both element sizes non-zero the derived initializer returns, having stored the
two quotients. -/
theorem initialize_computed_offsets_ok (s : Parameters)
    (hp : s (.SIZE .ipc_port) ≠ 0) (hv : s (.SIZE .ipc_voucher) ≠ 0) :
    initialize_computed_offsets s =
      .ok ((s.assign (.COUNT_PER_BLOCK .ipc_port)
              (s (.BLOCK_SIZE .ipc_port) / s (.SIZE .ipc_port))).assign
            (.COUNT_PER_BLOCK .ipc_voucher)
              (s (.BLOCK_SIZE .ipc_voucher) / s (.SIZE .ipc_voucher))) := by
  have e1 : ∀ q, (s.assign (.COUNT_PER_BLOCK .ipc_port) q) (.SIZE .ipc_voucher)
      = s (.SIZE .ipc_voucher) := fun _ => rfl
  have e2 : ∀ q, (s.assign (.COUNT_PER_BLOCK .ipc_port) q) (.BLOCK_SIZE .ipc_voucher)
      = s (.BLOCK_SIZE .ipc_voucher) := fun _ => rfl
  simp only [initialize_computed_offsets, udiv, hp, hv, if_false, e1, e2]

/-- When the matcher accepts the pair `("*", "*")` every entry of both tables fires:
the three initializers run in order and `parameters_init` returns true. -/
theorem parameters_init_of_accept (pm : Matcher) (p : Platform) (s : Parameters)
    (h : pm p "*" "*" = true) :
    ∃ s1 s2 s3, init__system_parameters s = .ok s1 ∧
      offsets__iphone8_2__16E227 s1 = .ok s2 ∧
      initialize_computed_offsets s2 = .ok s3 ∧
      run_initializations pm p system_parameters s = .ok (1, s1) ∧
      run_initializations pm p offsets s1 = .ok (2, s3) ∧
      parameters_init pm p s = .ok (true, s3) := by
  obtain ⟨s1, h1⟩ := init__system_parameters_ok s
  obtain ⟨s2, h2, hp, _, hv, _⟩ := offsets__iphone8_2__16E227_ok s1
  obtain ⟨s3, h3⟩ : ∃ s3, initialize_computed_offsets s2 = .ok s3 :=
    ⟨_, initialize_computed_offsets_ok s2 (by rw [hp]; decide) (by rw [hv]; decide)⟩
  have r1 : run_initializations pm p system_parameters s = .ok (1, s1) := by
    simp only [run_initializations, system_parameters, run_initializations.loop, h, if_true, h1]
  have r2 : run_initializations pm p offsets s1 = .ok (2, s3) := by
    simp only [run_initializations, offsets, run_initializations.loop, h, if_true, h2, h3]
  refine ⟨s1, s2, s3, h1, h2, h3, r1, r2, ?_⟩
  simp only [parameters_init, r1, r2, min_offsets, Nat.lt_irrefl, if_false]

/-- When the matcher rejects the pair `("*", "*")` no entry of either table fires:
the store is untouched and `parameters_init` returns false. -/
theorem parameters_init_of_reject (pm : Matcher) (p : Platform) (s : Parameters)
    (h : pm p "*" "*" = false) :
    run_initializations pm p system_parameters s = .ok (0, s) ∧
      run_initializations pm p offsets s = .ok (0, s) ∧
      parameters_init pm p s = .ok (false, s) := by
  have r1 : run_initializations pm p system_parameters s = .ok (0, s) := by
    simp [run_initializations, system_parameters, run_initializations.loop, h]
  have r2 : run_initializations pm p offsets s = .ok (0, s) := by
    simp [run_initializations, offsets, run_initializations.loop, h]
  refine ⟨r1, r2, ?_⟩
  simp [parameters_init, r1, r2, min_offsets]

/-! ## The quorum -/

/-- C2. For every matcher, platform and initial store, `parameters_init` returns, and
its result is false exactly when the number of entries of the offsets table that fired
(the count `run_initializations` returned for that table, which is the number of entries
the matcher accepts) is below `min_offsets = 2`, and true otherwise; a count of 1 gives
false and a count of 2 gives true. -/
theorem parameters_init_false_iff_below_quorum (pm : Matcher) (p : Platform)
    (s : Parameters) :
    ∃ c0 s1 count s2 b,
      run_initializations pm p system_parameters s = .ok (c0, s1) ∧
      run_initializations pm p offsets s1 = .ok (count, s2) ∧
      count = (offsets.filter fun e => pm p e.devices e.builds).length ∧
      parameters_init pm p s = .ok (b, s2) ∧
      min_offsets = 2 ∧
      (b = false ↔ count < min_offsets) ∧ (b = true ↔ min_offsets ≤ count) ∧
      (count = 1 → b = false) ∧ (count = 2 → b = true) := by
  cases h : pm p "*" "*" with
  | true =>
    obtain ⟨s1, s2, s3, _, _, _, r1, r2, r⟩ := parameters_init_of_accept pm p s h
    refine ⟨1, s1, 2, s3, true, r1, r2, ?_, r, rfl, ?_, ?_, ?_, ?_⟩
    · simp [offsets, h]
    all_goals simp [min_offsets]
  | false =>
    obtain ⟨r1, r2, r⟩ := parameters_init_of_reject pm p s h
    refine ⟨0, s, 0, s, false, r1, r2, ?_, r, rfl, ?_, ?_, ?_, ?_⟩
    · simp [offsets, h]
    all_goals simp [min_offsets]

/-! ## The populated store -/

/-- The general initializer stores its six constants and touches no other parameter. -/
theorem init__system_parameters_spec (s t : Parameters)
    (h : init__system_parameters s = .ok t) :
    t .STATIC_ADDRESS_kernel_base = 0xFFFFFFF007004000 ∧ t .kernel_slide_step = 0x1000 ∧
      t .message_size_for_kmsg_zone = 76 ∧ t .kmsg_zone_size = 256 ∧
      t .max_ool_ports_per_message = 16382 ∧ t .gc_step = 2 * MB ∧
      (∀ f, t (.OFFSET f) = s (.OFFSET f)) ∧ (∀ x, t (.SIZE x) = s (.SIZE x)) ∧
      (∀ x, t (.BLOCK_SIZE x) = s (.BLOCK_SIZE x)) ∧
      (∀ x, t (.COUNT_PER_BLOCK x) = s (.COUNT_PER_BLOCK x)) := by
  simp only [init__system_parameters, Except.ok.injEq] at h
  subst h
  simp [Parameters.assign]

/-- The base offsets initializer touches neither the general system parameters nor
the computed counts. -/
theorem offsets__iphone8_2__16E227_frame (s t : Parameters)
    (h : offsets__iphone8_2__16E227 s = .ok t) :
    t .STATIC_ADDRESS_kernel_base = s .STATIC_ADDRESS_kernel_base ∧
      t .kernel_slide_step = s .kernel_slide_step ∧
      t .message_size_for_kmsg_zone = s .message_size_for_kmsg_zone ∧
      t .kmsg_zone_size = s .kmsg_zone_size ∧
      t .max_ool_ports_per_message = s .max_ool_ports_per_message ∧
      t .gc_step = s .gc_step ∧
      (∀ x, t (.COUNT_PER_BLOCK x) = s (.COUNT_PER_BLOCK x)) := by
  simp only [offsets__iphone8_2__16E227, Except.ok.injEq] at h
  subst h
  simp [Parameters.assign]

/-- The base offsets initializer stores a constant into every `OFFSET`, `SIZE` and
`BLOCK_SIZE` parameter: two runs of it agree on all of them. -/
theorem offsets__iphone8_2__16E227_const (s t z u : Parameters)
    (h : offsets__iphone8_2__16E227 s = .ok t) (g : offsets__iphone8_2__16E227 z = .ok u) :
    (∀ f, t (.OFFSET f) = u (.OFFSET f)) ∧ (∀ x, t (.SIZE x) = u (.SIZE x)) ∧
      (∀ x, t (.BLOCK_SIZE x) = u (.BLOCK_SIZE x)) := by
  simp only [offsets__iphone8_2__16E227, Except.ok.injEq] at h g
  subst h
  subst g
  refine ⟨fun f => ?_, fun x => ?_, fun x => ?_⟩
  · cases f <;> simp [Parameters.assign]
  · cases x <;> simp [Parameters.assign]
  · cases x <;> simp [Parameters.assign]

/-- The derived initializer, when it returns, has stored the two quotients and touched
no other parameter. -/
theorem initialize_computed_offsets_spec (s t : Parameters)
    (h : initialize_computed_offsets s = .ok t) :
    s (.SIZE .ipc_port) ≠ 0 ∧ s (.SIZE .ipc_voucher) ≠ 0 ∧
      t (.COUNT_PER_BLOCK .ipc_port) = s (.BLOCK_SIZE .ipc_port) / s (.SIZE .ipc_port) ∧
      t (.COUNT_PER_BLOCK .ipc_voucher)
        = s (.BLOCK_SIZE .ipc_voucher) / s (.SIZE .ipc_voucher) ∧
      ∀ k, k ≠ .COUNT_PER_BLOCK .ipc_port → k ≠ .COUNT_PER_BLOCK .ipc_voucher →
        t k = s k := by
  by_cases hp : s (.SIZE .ipc_port) = 0
  · simp [initialize_computed_offsets, udiv, hp] at h
  by_cases hv : s (.SIZE .ipc_voucher) = 0
  · have e1 : ∀ q, (s.assign (.COUNT_PER_BLOCK .ipc_port) q) (.SIZE .ipc_voucher)
        = s (.SIZE .ipc_voucher) := fun _ => rfl
    simp [initialize_computed_offsets, udiv, hp, hv, e1] at h
  rw [initialize_computed_offsets_ok s hp hv] at h
  cases h
  refine ⟨hp, hv, rfl, rfl, fun k h1 h2 => ?_⟩
  simp [Parameters.assign, h1, h2]

/-- A run of `parameters_init` that returns true ran the three initializers in order. -/
theorem parameters_init_true_inv (pm : Matcher) (p : Platform) (s t : Parameters)
    (h : parameters_init pm p s = .ok (true, t)) :
    ∃ s1 s2, init__system_parameters s = .ok s1 ∧ offsets__iphone8_2__16E227 s1 = .ok s2 ∧
      initialize_computed_offsets s2 = .ok t := by
  cases hm : pm p "*" "*" with
  | false =>
    rw [(parameters_init_of_reject pm p s hm).2.2] at h
    cases h
  | true =>
    obtain ⟨s1, s2, s3, h1, h2, h3, _, _, r⟩ := parameters_init_of_accept pm p s hm
    rw [r] at h
    cases h
    exact ⟨s1, s2, h1, h2, h3⟩

/-- The store after the three initializers, parameter by parameter. -/
theorem populated_store_spec (s s1 s2 t : Parameters)
    (h1 : init__system_parameters s = .ok s1) (h2 : offsets__iphone8_2__16E227 s1 = .ok s2)
    (h3 : initialize_computed_offsets s2 = .ok t) :
    t .STATIC_ADDRESS_kernel_base = 0xFFFFFFF007004000 ∧ t .kernel_slide_step = 0x1000 ∧
      t .message_size_for_kmsg_zone = 76 ∧ t .kmsg_zone_size = 256 ∧
      t .max_ool_ports_per_message = 16382 ∧ t .gc_step = 2 * MB ∧
      (∀ f, t (.OFFSET f) = s2 (.OFFSET f)) ∧ (∀ x, t (.SIZE x) = s2 (.SIZE x)) ∧
      (∀ x, t (.BLOCK_SIZE x) = s2 (.BLOCK_SIZE x)) ∧
      t (.COUNT_PER_BLOCK .ipc_port) = 0x4000 / 0xa8 ∧
      t (.COUNT_PER_BLOCK .ipc_voucher) = 0x4000 / 0x50 := by
  obtain ⟨a1, a2, a3, a4, a5, a6, _⟩ := init__system_parameters_spec s s1 h1
  obtain ⟨b1, b2, b3, b4, b5, b6, _⟩ := offsets__iphone8_2__16E227_frame s1 s2 h2
  obtain ⟨u, hu, cp, cbp, cv, cbv⟩ := offsets__iphone8_2__16E227_ok s1
  rw [h2] at hu
  cases hu
  obtain ⟨_, _, d1, d2, d⟩ := initialize_computed_offsets_spec s2 t h3
  refine ⟨?_, ?_, ?_, ?_, ?_, ?_, fun f => ?_, fun x => ?_, fun x => ?_, ?_, ?_⟩
  · rw [d _ (by simp) (by simp), b1, a1]
  · rw [d _ (by simp) (by simp), b2, a2]
  · rw [d _ (by simp) (by simp), b3, a3]
  · rw [d _ (by simp) (by simp), b4, a4]
  · rw [d _ (by simp) (by simp), b5, a5]
  · rw [d _ (by simp) (by simp), b6, a6]
  · exact d _ (by simp) (by simp)
  · exact d _ (by simp) (by simp)
  · exact d _ (by simp) (by simp)
  · rw [d1, cp, cbp]
  · rw [d2, cv, cbv]

/-- C3. Whenever `parameters_init` returns true the store is fully populated, whatever
the initial store was: the general system parameters hold the constants of
`init__system_parameters`, every `OFFSET`, `SIZE` and `BLOCK_SIZE` parameter holds the
value `offsets__iphone8_2__16E227` assigns to it, both `COUNT_PER_BLOCK` parameters hold
`BLOCK_SIZE / SIZE` of their structure, and any other run that returns true ends in the
same store. -/
theorem parameters_init_true_populates (pm : Matcher) (p : Platform) (s t : Parameters)
    (h : parameters_init pm p s = .ok (true, t)) :
    t .STATIC_ADDRESS_kernel_base = 0xFFFFFFF007004000 ∧ t .kernel_slide_step = 0x1000 ∧
      t .message_size_for_kmsg_zone = 76 ∧ t .kmsg_zone_size = 256 ∧
      t .max_ool_ports_per_message = 16382 ∧ t .gc_step = 2 * MB ∧
      (∀ z, ∃ u, offsets__iphone8_2__16E227 z = .ok u ∧
        (∀ f, t (.OFFSET f) = u (.OFFSET f)) ∧ (∀ x, t (.SIZE x) = u (.SIZE x)) ∧
        (∀ x, t (.BLOCK_SIZE x) = u (.BLOCK_SIZE x))) ∧
      t (.COUNT_PER_BLOCK .ipc_port) = t (.BLOCK_SIZE .ipc_port) / t (.SIZE .ipc_port) ∧
      t (.COUNT_PER_BLOCK .ipc_voucher)
        = t (.BLOCK_SIZE .ipc_voucher) / t (.SIZE .ipc_voucher) ∧
      (∀ (pm0 : Matcher) (p0 : Platform) (z z1 : Parameters),
        parameters_init pm0 p0 z = .ok (true, z1) → z1 = t) := by
  obtain ⟨s1, s2, h1, h2, h3⟩ := parameters_init_true_inv pm p s t h
  obtain ⟨a1, a2, a3, a4, a5, a6, o, sz, bs, c1, c2⟩ := populated_store_spec s s1 s2 t h1 h2 h3
  obtain ⟨_, hu, cp, cbp, cv, cbv⟩ := offsets__iphone8_2__16E227_ok s1
  rw [h2] at hu
  cases hu
  refine ⟨a1, a2, a3, a4, a5, a6, fun z => ?_, ?_, ?_, ?_⟩
  · obtain ⟨u, hu, _⟩ := offsets__iphone8_2__16E227_ok z
    obtain ⟨e1, e2, e3⟩ := offsets__iphone8_2__16E227_const s1 s2 z u h2 hu
    exact ⟨u, hu, fun f => (o f).trans (e1 f), fun x => (sz x).trans (e2 x),
      fun x => (bs x).trans (e3 x)⟩
  · rw [c1, bs, sz, cp, cbp]
  · rw [c2, bs, sz, cv, cbv]
  · intro pm0 p0 z z1 hz
    obtain ⟨z2, z3, g1, g2, g3⟩ := parameters_init_true_inv pm0 p0 z z1 hz
    obtain ⟨b1, b2, b3, b4, b5, b6, o1, sz1, bs1, d1, d2⟩ :=
      populated_store_spec z z2 z3 z1 g1 g2 g3
    obtain ⟨e1, e2, e3⟩ := offsets__iphone8_2__16E227_const z2 z3 s1 s2 g2 h2
    funext k
    cases k with
    | STATIC_ADDRESS_kernel_base => rw [b1, a1]
    | kernel_slide_step => rw [b2, a2]
    | message_size_for_kmsg_zone => rw [b3, a3]
    | kmsg_zone_size => rw [b4, a4]
    | max_ool_ports_per_message => rw [b5, a5]
    | gc_step => rw [b6, a6]
    | OFFSET f => rw [o1, o, e1]
    | SIZE x => rw [sz1, sz, e2]
    | BLOCK_SIZE x => rw [bs1, bs, e3]
    | COUNT_PER_BLOCK x => cases x <;> simp only [c1, c2, d1, d2]

/-- C3 at a concrete run: an iPhone8,2 on build 16E227 under the matcher of the
specification, started from the zero store. -/
theorem parameters_init_true_populates_witness :
    parameters_init spec_platform_matches iphone8_2__16E227 Parameters.zero
        = .ok (true, populated_store) ∧
      populated_store .STATIC_ADDRESS_kernel_base = 0xFFFFFFF007004000 ∧
      populated_store (.COUNT_PER_BLOCK .ipc_port)
        = populated_store (.BLOCK_SIZE .ipc_port) / populated_store (.SIZE .ipc_port) :=
  have h := parameters_init_true_populates spec_platform_matches iphone8_2__16E227
    Parameters.zero populated_store rfl
  ⟨rfl, h.1, h.2.2.2.2.2.2.2.1⟩

/-! ## The offsets table under a wildcard -/

/-- When the matcher accepts the pair `("*", "*")` both entries of the offsets table
fire, from any store: the base initializer, then the derived one on its result. -/
theorem run_offsets_of_accept (pm : Matcher) (p : Platform) (s : Parameters)
    (h : pm p "*" "*" = true) :
    ∃ s2 s3, offsets__iphone8_2__16E227 s = .ok s2 ∧ initialize_computed_offsets s2 = .ok s3 ∧
      run_initializations pm p offsets s = .ok (2, s3) := by
  obtain ⟨s2, h2, hp, _, hv, _⟩ := offsets__iphone8_2__16E227_ok s
  obtain ⟨s3, h3⟩ : ∃ s3, initialize_computed_offsets s2 = .ok s3 :=
    ⟨_, initialize_computed_offsets_ok s2 (by rw [hp]; decide) (by rw [hv]; decide)⟩
  refine ⟨s2, s3, h2, h3, ?_⟩
  simp only [run_initializations, offsets, run_initializations.loop, h, if_true, h2, h3]

/-- The matcher of the specification accepts the wildcard pair on every platform. -/
theorem spec_platform_matches_wildcard (p : Platform) :
    spec_platform_matches p "*" "*" = true := rfl

/-- C4, as written, fails: on machine "iPhoneUnknown,1", build "ZZ000Z", under the
matcher of the specification, the offsets table yields a match count of 2, not 0, and
`parameters_init` returns true, not false. -/
theorem unknown_platform_reaches_quorum :
    (run_initializations spec_platform_matches unknown_platform offsets
        Parameters.zero).map Prod.fst = .ok 2 ∧
      (parameters_init spec_platform_matches unknown_platform
        Parameters.zero).map Prod.fst = .ok true ∧
      ¬ (∃ t, run_initializations spec_platform_matches unknown_platform offsets
        Parameters.zero = .ok (0, t)) ∧
      ¬ (∃ t, parameters_init spec_platform_matches unknown_platform
        Parameters.zero = .ok (false, t)) := by
  refine ⟨rfl, rfl, ?_, ?_⟩
  · rintro ⟨t, ht⟩
    have h : (run_initializations spec_platform_matches unknown_platform offsets
        Parameters.zero).map Prod.fst = .ok 2 := rfl
    rw [ht] at h
    cases h
  · rintro ⟨t, ht⟩
    have h : (parameters_init spec_platform_matches unknown_platform
        Parameters.zero).map Prod.fst = .ok true := rfl
    rw [ht] at h
    cases h

/-- C4, amended. On machine "iPhoneUnknown,1", build "ZZ000Z", under the matcher of the
specification, both entries of the offsets table carry the wildcard pair and fire: from
every store the match count is 2, which meets the quorum, and `parameters_init` returns
true. -/
theorem unknown_platform_count_two (s : Parameters) :
    (∀ e ∈ offsets, e.devices = "*" ∧ e.builds = "*" ∧
      spec_platform_matches unknown_platform e.devices e.builds = true) ∧
    (∃ t, run_initializations spec_platform_matches unknown_platform offsets s = .ok (2, t)) ∧
    ¬ 2 < min_offsets ∧
    ∃ t, parameters_init spec_platform_matches unknown_platform s = .ok (true, t) := by
  have hw := spec_platform_matches_wildcard unknown_platform
  refine ⟨?_, ?_, by decide, ?_⟩
  · intro e he
    simp only [offsets, List.mem_cons, List.mem_singleton, List.not_mem_nil, or_false] at he
    rcases he with rfl | rfl <;> exact ⟨rfl, rfl, rfl⟩
  · obtain ⟨_, s3, _, _, r⟩ := run_offsets_of_accept _ unknown_platform s hw
    exact ⟨s3, r⟩
  · obtain ⟨_, _, s3, _, _, _, _, _, r⟩ := parameters_init_of_accept _ unknown_platform s hw
    exact ⟨s3, r⟩

/-- C5. The quorum count includes the wildcard entries: under a matcher that accepts the
pair `("*", "*")` on every platform, for every platform and initial store every entry of
the offsets table fires, `run_initializations` over the offsets table returns 2, the
length of the table, and `parameters_init` returns true. -/
theorem wildcard_entries_count (pm : Matcher) (hw : ∀ p, pm p "*" "*" = true)
    (p : Platform) (s : Parameters) :
    (∀ e ∈ offsets, pm p e.devices e.builds = true) ∧
    (offsets.filter fun e => pm p e.devices e.builds) = offsets ∧
    offsets.length = 2 ∧
    (∃ t, run_initializations pm p offsets s = .ok (2, t)) ∧
    ∃ t, parameters_init pm p s = .ok (true, t) := by
  have hall : ∀ e ∈ offsets, pm p e.devices e.builds = true := by
    intro e he
    simp only [offsets, List.mem_cons, List.mem_singleton, List.not_mem_nil, or_false] at he
    rcases he with rfl | rfl <;> exact hw p
  refine ⟨hall, List.filter_eq_self.mpr hall, rfl, ?_, ?_⟩
  · obtain ⟨_, s3, _, _, r⟩ := run_offsets_of_accept pm p s (hw p)
    exact ⟨s3, r⟩
  · obtain ⟨_, _, s3, _, _, _, _, _, r⟩ := parameters_init_of_accept pm p s (hw p)
    exact ⟨s3, r⟩

/-- C5 at the matcher of the specification, on the unknown platform, from the zero
store. -/
theorem wildcard_entries_count_witness :
    (∀ p, spec_platform_matches p "*" "*" = true) ∧
    (∃ t, run_initializations spec_platform_matches unknown_platform offsets
      Parameters.zero = .ok (2, t)) ∧
    ∃ t, parameters_init spec_platform_matches unknown_platform Parameters.zero
      = .ok (true, t) :=
  have h := wildcard_entries_count spec_platform_matches (fun _ => rfl) unknown_platform
    Parameters.zero
  ⟨fun _ => rfl, h.2.2.2.1, h.2.2.2.2⟩

/-- C6. On every platform for which the matcher accepts the wildcard pair, from every
initial store, `parameters_init` leaves `BLOCK_SIZE(ipc_port) = 0x4000`,
`SIZE(ipc_port) = 0xa8` and `COUNT_PER_BLOCK(ipc_port) = 97`, which is 16384 / 168
truncated, and `COUNT_PER_BLOCK(ipc_voucher) = 0x4000 / 0x50 = 204`. -/
theorem parameters_init_count_per_block (pm : Matcher) (p : Platform) (s : Parameters)
    (h : pm p "*" "*" = true) :
    ∃ t, parameters_init pm p s = .ok (true, t) ∧
      t (.BLOCK_SIZE .ipc_port) = 0x4000 ∧ t (.SIZE .ipc_port) = 0xa8 ∧
      t (.COUNT_PER_BLOCK .ipc_port) = 97 ∧
      t (.COUNT_PER_BLOCK .ipc_port) = t (.BLOCK_SIZE .ipc_port) / t (.SIZE .ipc_port) ∧
      t (.BLOCK_SIZE .ipc_voucher) = 0x4000 ∧ t (.SIZE .ipc_voucher) = 0x50 ∧
      t (.COUNT_PER_BLOCK .ipc_voucher) = 204 ∧
      t (.COUNT_PER_BLOCK .ipc_voucher)
        = t (.BLOCK_SIZE .ipc_voucher) / t (.SIZE .ipc_voucher) := by
  obtain ⟨s1, s2, t, h1, h2, h3, _, _, r⟩ := parameters_init_of_accept pm p s h
  obtain ⟨_, _, _, _, _, _, _, sz, bs, c1, c2⟩ := populated_store_spec s s1 s2 t h1 h2 h3
  obtain ⟨_, hu, cp, cbp, cv, cbv⟩ := offsets__iphone8_2__16E227_ok s1
  rw [h2] at hu
  cases hu
  refine ⟨t, r, ?_, ?_, ?_, ?_, ?_, ?_, ?_, ?_⟩
  · rw [bs, cbp]
  · rw [sz, cp]
  · rw [c1]
  · rw [c1, bs, sz, cp, cbp]
  · rw [bs, cbv]
  · rw [sz, cv]
  · rw [c2]
  · rw [c2, bs, sz, cv, cbv]

/-- C6 on an iPhone8,2 with build 16E227 under the matcher of the specification, from
the zero store. -/
theorem parameters_init_count_per_block_witness :
    spec_platform_matches iphone8_2__16E227 "*" "*" = true ∧
    ∃ t, parameters_init spec_platform_matches iphone8_2__16E227 Parameters.zero
        = .ok (true, t) ∧
      t (.COUNT_PER_BLOCK .ipc_port) = 97 ∧ t (.COUNT_PER_BLOCK .ipc_voucher) = 204 :=
  have ⟨t, r, _, _, c1, _, _, _, c2, _⟩ :=
    parameters_init_count_per_block spec_platform_matches iphone8_2__16E227 Parameters.zero rfl
  ⟨rfl, t, r, c1, c2⟩

/-! ## The derived initializer -/

/-- C7. In every run of `parameters_init` the division by zero is not reached: the run
returns. Either the matcher rejects the pair carried by every entry, and then no
initializer runs at all; or the derived initializer runs, and then the base initializer
`offsets__iphone8_2__16E227` has run to completion just before it in the same pass over
the offsets table, so that the derived initializer starts from a store in which
`SIZE(ipc_port) = 0xa8` and `SIZE(ipc_voucher) = 0x50`, and returns. -/
theorem derived_runs_after_base (pm : Matcher) (p : Platform) (s : Parameters) :
    (∀ e ∈ offsets, e.devices = "*" ∧ e.builds = "*") ∧
    (∃ b t, parameters_init pm p s = .ok (b, t)) ∧
    ((pm p "*" "*" = false ∧
        run_initializations pm p system_parameters s = .ok (0, s) ∧
        run_initializations pm p offsets s = .ok (0, s) ∧
        parameters_init pm p s = .ok (false, s)) ∨
      (pm p "*" "*" = true ∧ ∃ s1 s2 t,
        run_initializations pm p system_parameters s = .ok (1, s1) ∧
        offsets__iphone8_2__16E227 s1 = .ok s2 ∧
        run_initializations pm p (offsets.take 1) s1 = .ok (1, s2) ∧
        s2 (.SIZE .ipc_port) = 0xa8 ∧ s2 (.SIZE .ipc_voucher) = 0x50 ∧
        initialize_computed_offsets s2 = .ok t ∧
        run_initializations pm p (offsets.drop 1) s2 = .ok (1, t) ∧
        run_initializations pm p offsets s1 = .ok (2, t) ∧
        parameters_init pm p s = .ok (true, t))) := by
  have hpat : ∀ e ∈ offsets, e.devices = "*" ∧ e.builds = "*" := by
    intro e he
    simp only [offsets, List.mem_cons, List.mem_singleton, List.not_mem_nil, or_false] at he
    rcases he with rfl | rfl <;> exact ⟨rfl, rfl⟩
  cases h : pm p "*" "*" with
  | false =>
    obtain ⟨r1, r2, r⟩ := parameters_init_of_reject pm p s h
    exact ⟨hpat, ⟨false, s, r⟩, Or.inl ⟨rfl, r1, r2, r⟩⟩
  | true =>
    obtain ⟨s1, s2, t, _, h2, h3, r1, r2, r⟩ := parameters_init_of_accept pm p s h
    obtain ⟨_, hu, hp, _, hv, _⟩ := offsets__iphone8_2__16E227_ok s1
    rw [h2] at hu
    cases hu
    refine ⟨hpat, ⟨true, t, r⟩, Or.inr ⟨rfl, s1, s2, t, r1, h2, ?_, hp, hv, h3, ?_, r2, r⟩⟩
    · simp only [run_initializations, offsets, List.take, run_initializations.loop, h, if_true,
        h2]
    · simp only [run_initializations, offsets, List.drop, run_initializations.loop, h, if_true,
        h3]

/-! ## Overriding by table position -/

/-- A parameter that no matching entry of a table writes keeps its value through
`run_initializations`. -/
theorem loop_frame (pm : Matcher) (p : Platform) (k : Key) (T : List initialization)
    (hT : ∀ e ∈ T, pm p e.devices e.builds = true →
      ∀ st st1, e.init st = .ok st1 → st1 k = st k) :
    ∀ (n : Nat) (s : Parameters) (c : Nat) (t : Parameters),
      run_initializations.loop pm p T n s = .ok (c, t) → t k = s k := by
  induction T with
  | nil =>
    intro n s c t h
    simp only [run_initializations.loop, Except.ok.injEq, Prod.mk.injEq] at h
    rw [h.2]
  | cons e T ih =>
    intro n s c t h
    have ihT := ih fun e1 he1 => hT e1 (List.mem_cons_of_mem e he1)
    by_cases hm : pm p e.devices e.builds = true
    · simp only [run_initializations.loop, hm, if_true] at h
      cases he : e.init s with
      | error f => rw [he] at h; cases h
      | ok s1 =>
        rw [he] at h
        rw [ihT (n + 1) s1 c t h, hT e (List.mem_cons_self e T) hm s s1 he]
    · have h0 : pm p e.devices e.builds = false := by simpa using hm
      simp only [run_initializations.loop, h0, Bool.false_eq_true, if_false] at h
      exact ihT n s c t h

/-- The loop over a table whose matching initializers all return does return. -/
theorem loop_total (pm : Matcher) (p : Platform) (T : List initialization)
    (hT : ∀ e ∈ T, pm p e.devices e.builds = true → ∀ st, ∃ st1, e.init st = .ok st1) :
    ∀ (n : Nat) (s : Parameters), ∃ c t, run_initializations.loop pm p T n s = .ok (c, t) := by
  induction T with
  | nil => intro n s; exact ⟨n, s, rfl⟩
  | cons e T ih =>
    intro n s
    have ihT := ih fun e1 he1 => hT e1 (List.mem_cons_of_mem e he1)
    by_cases hm : pm p e.devices e.builds = true
    · obtain ⟨s1, he⟩ := hT e (List.mem_cons_self e T) hm s
      obtain ⟨c, t, r⟩ := ihT (n + 1) s1
      exact ⟨c, t, by simp only [run_initializations.loop, hm, if_true, he, r]⟩
    · have h0 : pm p e.devices e.builds = false := by simpa using hm
      obtain ⟨c, t, r⟩ := ihT n s
      exact ⟨c, t, by simp only [run_initializations.loop, h0, Bool.false_eq_true, if_false, r]⟩

/-- The loop over two tables in a row is the loop over the first, continued over the
second with the count and the store the first one left. -/
theorem loop_append (pm : Matcher) (p : Platform) (ys : List initialization)
    (xs : List initialization) :
    ∀ (n : Nat) (s : Parameters),
      run_initializations.loop pm p (xs ++ ys) n s =
        match run_initializations.loop pm p xs n s with
        | .error e => .error e
        | .ok (c, t) => run_initializations.loop pm p ys c t := by
  induction xs with
  | nil => intro n s; rfl
  | cons e xs ih =>
    intro n s
    by_cases hm : pm p e.devices e.builds = true
    · simp only [List.cons_append, run_initializations.loop, hm, if_true]
      cases he : e.init s with
      | error f => rfl
      | ok s1 => exact ih (n + 1) s1
    · have h0 : pm p e.devices e.builds = false := by simpa using hm
      simp only [List.cons_append, run_initializations.loop, h0, Bool.false_eq_true, if_false]
      exact ih n s

/-- C9. Override law, last writer wins. In a table in which a rule `R1` precedes a rule
`R2`, on a platform both match, for a key that no matching rule after `R2` writes: every
run of `run_initializations` over the table that returns has fired `R1`, has fired `R2`
later, on the store `s0` the rules before it left, and ends with the key holding what the
initializer of `R2` left there; when that initializer writes the value `v`, the final
value is `v`. The run does return when the initializers of the matching rules do. -/
theorem override_last_writer_wins (pm : Matcher) (p : Platform)
    (pre mid post : List initialization) (R1 R2 : initialization) (k : Key) (s : Parameters)
    (m1 : pm p R1.devices R1.builds = true) (m2 : pm p R2.devices R2.builds = true)
    (later : ∀ e ∈ post, pm p e.devices e.builds = true →
      ∀ st st1, e.init st = .ok st1 → st1 k = st k) :
    (∀ c sf, run_initializations pm p ((pre ++ R1 :: mid) ++ R2 :: post) s = .ok (c, sf) →
      ∃ cp a b c0 s0 sg,
        run_initializations pm p pre s = .ok (cp, a) ∧ R1.init a = .ok b ∧
        run_initializations pm p (pre ++ R1 :: mid) s = .ok (c0, s0) ∧
        R2.init s0 = .ok sg ∧ sf k = sg k ∧
        ∀ v, (∀ st st1, R2.init st = .ok st1 → st1 k = v) → sf k = v) ∧
    ((∀ e ∈ (pre ++ R1 :: mid) ++ R2 :: post, pm p e.devices e.builds = true →
        ∀ st, ∃ st1, e.init st = .ok st1) →
      ∃ c sf, run_initializations pm p ((pre ++ R1 :: mid) ++ R2 :: post) s = .ok (c, sf)) := by
  refine ⟨fun c sf hrun => ?_, fun total => loop_total pm p _ total 0 s⟩
  unfold run_initializations at hrun ⊢
  rw [loop_append] at hrun
  cases h0 : run_initializations.loop pm p (pre ++ R1 :: mid) 0 s with
  | error f => rw [h0] at hrun; cases hrun
  | ok r0 =>
    obtain ⟨c0, s0⟩ := r0
    rw [h0] at hrun
    simp only [run_initializations.loop, m2, if_true] at hrun
    cases hg : R2.init s0 with
    | error f => rw [hg] at hrun; cases hrun
    | ok sg =>
      rw [hg] at hrun
      have hk : sf k = sg k := loop_frame pm p k post later (c0 + 1) sg c sf hrun
      have h1 := h0
      rw [loop_append] at h1
      cases ha : run_initializations.loop pm p pre 0 s with
      | error f => rw [ha] at h1; cases h1
      | ok ra =>
        obtain ⟨cp, a⟩ := ra
        rw [ha] at h1
        simp only [run_initializations.loop, m1, if_true] at h1
        cases hb : R1.init a with
        | error f => rw [hb] at h1; cases h1
        | ok b =>
          exact ⟨cp, a, b, c0, s0, sg, rfl, hb, rfl, hg, hk, fun v hv => by
            rw [hk]; exact hv s0 sg hg⟩

/-- C9 on the table `("*", "*", f)`, `("iPhone8,2", "*", g)`, `("iPhone12,3", "*", h)`,
all three writing `SIZE(ipc_port)`, for an iPhone8,2 under the matcher of the
specification, from the zero store: the run returns with count 2 and the final value is
the 2 written by `g`. -/
theorem override_last_writer_wins_witness :
    spec_platform_matches iphone8_2__16E227 rule_default.devices rule_default.builds = true ∧
    spec_platform_matches iphone8_2__16E227 rule_override.devices rule_override.builds
      = true ∧
    run_initializations spec_platform_matches iphone8_2__16E227
        [rule_default, rule_override, rule_other_device] Parameters.zero
      = .ok (2, (Parameters.zero.assign (.SIZE .ipc_port) 1).assign (.SIZE .ipc_port) 2) ∧
    ((Parameters.zero.assign (.SIZE .ipc_port) 1).assign (.SIZE .ipc_port) 2)
      (.SIZE .ipc_port) = 2 :=
  have h := override_last_writer_wins spec_platform_matches iphone8_2__16E227 [] []
    [rule_other_device] rule_default rule_override (.SIZE .ipc_port) Parameters.zero rfl rfl
    (fun e he hm => by
      simp only [List.mem_singleton] at he
      subst he
      cases hm)
  have ⟨_, _, _, _, _, _, _, _, _, _, _, hv⟩ := h.1 2 _ rfl
  ⟨rfl, rfl, rfl, hv 2 (fun st st1 hg => by
    have e : st1 = st.assign (.SIZE .ipc_port) 2 := by
      simp only [rule_override, Except.ok.injEq] at hg
      exact hg.symm
    rw [e]
    simp [Parameters.assign])⟩

/-! ## Reading parameters -/

/-- A run of `parameters_init` that returns false fired no initializer: the matcher
rejected the pair carried by every entry, and the store is the initial one. -/
theorem parameters_init_false_inv (pm : Matcher) (p : Platform) (s t : Parameters)
    (h : parameters_init pm p s = .ok (false, t)) : pm p "*" "*" = false ∧ t = s := by
  cases hm : pm p "*" "*" with
  | false =>
    rw [(parameters_init_of_reject pm p s hm).2.2] at h
    simp only [Except.ok.injEq, Prod.mk.injEq, true_and] at h
    exact ⟨rfl, h.symm⟩
  | true =>
    obtain ⟨_, _, _, _, _, _, _, _, r⟩ := parameters_init_of_accept pm p s hm
    rw [r] at h
    cases h

/-- C10, as written, fails: reading a structure-offset parameter yields a value where
the claim asks for a failure. After `parameters_init` has returned false (under a
matcher that accepts nothing, from the zero store) `SIZE(ipc_port)` reads as 0; and after
the general table alone has run, none of whose rules writes `OFFSET(task, bsd_info)`,
that parameter reads as 0. -/
theorem read_unwritten_yields_value :
    parameters_init matches_nothing unknown_platform Parameters.zero
        = .ok (false, Parameters.zero) ∧
      Parameters.zero.read (.SIZE .ipc_port) = .ok 0 ∧
      run_initializations spec_platform_matches unknown_platform system_parameters
        Parameters.zero = .ok (1, system_store) ∧
      system_store.read (.OFFSET .task__bsd_info) = .ok 0 :=
  ⟨rfl, rfl, rfl, rfl⟩

/-- C10, amended. Reading a parameter never fails. After `parameters_init` has returned
false, or after a table has run none of whose matching rules writes the key, the read
yields the value the key had in the store before the run (0 in a fresh process). -/
theorem read_yields_initial_value (pm : Matcher) (p : Platform) (T : List initialization)
    (s t : Parameters) (c : Nat) (k : Key)
    (h : parameters_init pm p s = .ok (false, t) ∨
      (run_initializations pm p T s = .ok (c, t) ∧
        ∀ e ∈ T, pm p e.devices e.builds = true →
          ∀ st st1, e.init st = .ok st1 → st1 k = st k)) :
    t.read k = .ok (s k) ∧ (∀ f, t.read k ≠ .error f) ∧
      (s = Parameters.zero → t.read k = .ok 0) := by
  have hk : t k = s k := by
    rcases h with h | ⟨h, hT⟩
    · rw [(parameters_init_false_inv pm p s t h).2]
    · exact loop_frame pm p k T hT 0 s c t h
  have hr : t.read k = .ok (s k) := by
    simp only [Parameters.read, hk]
  refine ⟨hr, fun f hf => ?_, fun hz => ?_⟩
  · rw [hr] at hf
    cases hf
  · rw [hr, hz]
    rfl

/-- C10, amended, at its two cases: `SIZE(ipc_port)` after `parameters_init` returned
false under a matcher that accepts nothing, and `OFFSET(task, bsd_info)` after the
general table alone, both from the zero store. -/
theorem read_yields_initial_value_witness :
    (parameters_init matches_nothing unknown_platform Parameters.zero
        = .ok (false, Parameters.zero) ∧
      Parameters.zero.read (.SIZE .ipc_port) = .ok 0) ∧
    (run_initializations spec_platform_matches unknown_platform system_parameters
        Parameters.zero = .ok (1, system_store) ∧
      system_store.read (.OFFSET .task__bsd_info) = .ok 0) :=
  ⟨⟨rfl, (read_yields_initial_value matches_nothing unknown_platform [] Parameters.zero
      Parameters.zero 0 (.SIZE .ipc_port) (Or.inl rfl)).2.2 rfl⟩,
    ⟨rfl, (read_yields_initial_value spec_platform_matches unknown_platform system_parameters
      Parameters.zero system_store 1 (.OFFSET .task__bsd_info)
      (Or.inr ⟨rfl, fun e he _ st st1 h => by
        simp only [system_parameters, List.mem_singleton] at he
        subst he
        exact (init__system_parameters_spec st st1 h).2.2.2.2.2.2.1 _⟩)).2.2 rfl⟩⟩

/-! ## The driver -/

/-- The offsets table is the base-offset rules followed by the derived rules. -/
theorem offsets_eq_base_append_derived : offsets = base_offset_rules ++ derived_rules := rfl

/-- C12, as written, fails: for an iPhone8,2 on build 16E227 under the matcher of the
specification, from the zero store, `parameters_init` returns true with
`COUNT_PER_BLOCK(ipc_port) = 97`, while the two-phase driver counts one base-offset
rule, returns false and leaves `COUNT_PER_BLOCK(ipc_port) = 0`. -/
theorem two_phase_driver_disagrees :
    (parameters_init spec_platform_matches iphone8_2__16E227 Parameters.zero).map
        (fun r => (r.1, r.2 (.COUNT_PER_BLOCK .ipc_port))) = .ok (true, 97) ∧
      (spec_two_phase_driver spec_platform_matches iphone8_2__16E227 Parameters.zero).map
        (fun r => (r.1, r.2 (.COUNT_PER_BLOCK .ipc_port))) = .ok (false, 0) ∧
      parameters_init spec_platform_matches iphone8_2__16E227 Parameters.zero
        ≠ spec_two_phase_driver spec_platform_matches iphone8_2__16E227 Parameters.zero := by
  have h1 : (parameters_init spec_platform_matches iphone8_2__16E227 Parameters.zero).map
      (fun r => (r.1, r.2 (.COUNT_PER_BLOCK .ipc_port))) = .ok (true, 97) := rfl
  have h2 : (spec_two_phase_driver spec_platform_matches iphone8_2__16E227
      Parameters.zero).map
      (fun r => (r.1, r.2 (.COUNT_PER_BLOCK .ipc_port))) = .ok (false, 0) := rfl
  refine ⟨h1, h2, fun h => ?_⟩
  rw [h, h2] at h1
  cases h1

/-- C12, amended. For every matcher, platform and initial store, the boolean result and
the final store of `parameters_init` equal those of the driver that applies the general
rules, evaluates the base-offset rules and then the derived rules, records the sum `c`
of their match counts and returns false if `c < 2`, true otherwise: the derived rule
runs before the quorum check and contributes to `c`. The two-phase driver agrees with
it when the matcher rejects the pair `("*", "*")`; when the matcher accepts that pair
`parameters_init` returns true, both counts being 1, and the two-phase driver returns
false on the store the base-offset rule left. -/
theorem parameters_init_refines_single_pass (pm : Matcher) (p : Platform) (s : Parameters) :
    parameters_init pm p s = spec_single_pass_driver pm p s ∧
    ((pm p "*" "*" = false ∧ spec_two_phase_driver pm p s = parameters_init pm p s) ∨
      (pm p "*" "*" = true ∧ ∃ s1 s2 t,
        run_initializations pm p system_parameters s = .ok (1, s1) ∧
        run_initializations pm p base_offset_rules s1 = .ok (1, s2) ∧
        run_initializations pm p derived_rules s2 = .ok (1, t) ∧
        parameters_init pm p s = .ok (true, t) ∧
        spec_two_phase_driver pm p s = .ok (false, s2))) := by
  cases h : pm p "*" "*" with
  | false =>
    obtain ⟨r1, _, r⟩ := parameters_init_of_reject pm p s h
    have rb : run_initializations pm p base_offset_rules s = .ok (0, s) := by
      simp [run_initializations, base_offset_rules, run_initializations.loop, h]
    have rd : run_initializations pm p derived_rules s = .ok (0, s) := by
      simp [run_initializations, derived_rules, run_initializations.loop, h]
    refine ⟨?_, Or.inl ⟨rfl, ?_⟩⟩
    · simp [spec_single_pass_driver, r1, rb, rd, r, minimumQuorum]
    · simp [spec_two_phase_driver, r1, rb, r, minimumQuorum]
  | true =>
    obtain ⟨s1, s2, t, _, h2, h3, r1, _, r⟩ := parameters_init_of_accept pm p s h
    have rb : run_initializations pm p base_offset_rules s1 = .ok (1, s2) := by
      simp only [run_initializations, base_offset_rules, run_initializations.loop, h, if_true,
        h2]
    have rd : run_initializations pm p derived_rules s2 = .ok (1, t) := by
      simp only [run_initializations, derived_rules, run_initializations.loop, h, if_true, h3]
    refine ⟨?_, Or.inr ⟨rfl, s1, s2, t, r1, rb, rd, r, ?_⟩⟩
    · simp [spec_single_pass_driver, r1, rb, rd, r, minimumQuorum]
    · simp [spec_two_phase_driver, r1, rb, minimumQuorum]

/-! ## The frame of the derived initializer -/

/-- C13. In every store with `SIZE(ipc_port)` and `SIZE(ipc_voucher)` non-zero,
`initialize_computed_offsets` returns, having set `COUNT_PER_BLOCK(ipc_port)` to
`BLOCK_SIZE(ipc_port) / SIZE(ipc_port)` and `COUNT_PER_BLOCK(ipc_voucher)` to
`BLOCK_SIZE(ipc_voucher) / SIZE(ipc_voucher)`, the quotients truncated toward zero (the
largest `q` with `q * SIZE ≤ BLOCK_SIZE`), and every other parameter is unchanged. -/
theorem initialize_computed_offsets_sets_counts (s : Parameters)
    (hp : s (.SIZE .ipc_port) ≠ 0) (hv : s (.SIZE .ipc_voucher) ≠ 0) :
    ∃ t, initialize_computed_offsets s = .ok t ∧
      t (.COUNT_PER_BLOCK .ipc_port) = s (.BLOCK_SIZE .ipc_port) / s (.SIZE .ipc_port) ∧
      t (.COUNT_PER_BLOCK .ipc_voucher)
        = s (.BLOCK_SIZE .ipc_voucher) / s (.SIZE .ipc_voucher) ∧
      t (.COUNT_PER_BLOCK .ipc_port) * s (.SIZE .ipc_port) ≤ s (.BLOCK_SIZE .ipc_port) ∧
      s (.BLOCK_SIZE .ipc_port) < (t (.COUNT_PER_BLOCK .ipc_port) + 1) * s (.SIZE .ipc_port) ∧
      t (.COUNT_PER_BLOCK .ipc_voucher) * s (.SIZE .ipc_voucher)
        ≤ s (.BLOCK_SIZE .ipc_voucher) ∧
      s (.BLOCK_SIZE .ipc_voucher)
        < (t (.COUNT_PER_BLOCK .ipc_voucher) + 1) * s (.SIZE .ipc_voucher) ∧
      ∀ k, k ≠ .COUNT_PER_BLOCK .ipc_port → k ≠ .COUNT_PER_BLOCK .ipc_voucher →
        t k = s k := by
  have h := initialize_computed_offsets_ok s hp hv
  obtain ⟨_, _, d1, d2, d⟩ := initialize_computed_offsets_spec s _ h
  refine ⟨_, h, d1, d2, ?_, ?_, ?_, ?_, d⟩
  · rw [d1]; exact Nat.div_mul_le_self _ _
  · rw [d1, Nat.add_mul, Nat.one_mul]
    exact Nat.lt_div_mul_add (Nat.pos_of_ne_zero hp)
  · rw [d2]; exact Nat.div_mul_le_self _ _
  · rw [d2, Nat.add_mul, Nat.one_mul]
    exact Nat.lt_div_mul_add (Nat.pos_of_ne_zero hv)

/-- C13 in a store with block sizes 10 and 7 and element sizes 3 and 8: the counts
become 3 and 0, and `SIZE(ipc_port)` is still 3. -/
theorem initialize_computed_offsets_sets_counts_witness :
    sample_store (.SIZE .ipc_port) ≠ 0 ∧ sample_store (.SIZE .ipc_voucher) ≠ 0 ∧
    ∃ t, initialize_computed_offsets sample_store = .ok t ∧
      t (.COUNT_PER_BLOCK .ipc_port) = 3 ∧ t (.COUNT_PER_BLOCK .ipc_voucher) = 0 ∧
      t (.SIZE .ipc_port) = 3 :=
  have hp : sample_store (.SIZE .ipc_port) ≠ 0 := by decide
  have hv : sample_store (.SIZE .ipc_voucher) ≠ 0 := by decide
  have ⟨t, e, c1, c2, _, _, _, _, fr⟩ := initialize_computed_offsets_sets_counts sample_store hp hv
  ⟨hp, hv, t, e, c1.trans (by decide), c2.trans (by decide),
    (fr (.SIZE .ipc_port) (by decide) (by decide)).trans (by decide)⟩

/-! ## Failure, the match count and repeated initialization -/

/-- Every entry of both tables carries the pattern pair `("*", "*")`. -/
theorem tables_carry_wildcard :
    ∀ e ∈ system_parameters ++ offsets, e.devices = "*" ∧ e.builds = "*" := by
  intro e he
  simp only [system_parameters, offsets, List.cons_append, List.nil_append, List.mem_cons,
    List.mem_singleton, List.not_mem_nil, or_false] at he
  rcases he with rfl | rfl | rfl <;> exact ⟨rfl, rfl⟩

/-- Any two runs of `parameters_init` that return true end in the same store. -/
theorem parameters_init_true_unique (pm pm0 : Matcher) (p p0 : Platform)
    (s t z u : Parameters) (h : parameters_init pm p s = .ok (true, t))
    (g : parameters_init pm0 p0 z = .ok (true, u)) : u = t := by
  obtain ⟨s1, s2, h1, h2, h3⟩ := parameters_init_true_inv pm p s t h
  obtain ⟨z1, z2, g1, g2, g3⟩ := parameters_init_true_inv pm0 p0 z u g
  obtain ⟨a1, a2, a3, a4, a5, a6, o, sz, bs, c1, c2⟩ := populated_store_spec s s1 s2 t h1 h2 h3
  obtain ⟨b1, b2, b3, b4, b5, b6, o1, sz1, bs1, d1, d2⟩ :=
    populated_store_spec z z1 z2 u g1 g2 g3
  obtain ⟨e1, e2, e3⟩ := offsets__iphone8_2__16E227_const z1 z2 s1 s2 g2 h2
  funext k
  cases k with
  | STATIC_ADDRESS_kernel_base => rw [b1, a1]
  | kernel_slide_step => rw [b2, a2]
  | message_size_for_kmsg_zone => rw [b3, a3]
  | kmsg_zone_size => rw [b4, a4]
  | max_ool_ports_per_message => rw [b5, a5]
  | gc_step => rw [b6, a6]
  | OFFSET f => rw [o1, o, e1]
  | SIZE x => rw [sz1, sz, e2]
  | BLOCK_SIZE x => rw [bs1, bs, e3]
  | COUNT_PER_BLOCK x => cases x <;> simp only [c1, c2, d1, d2]

/-- C14. Atomicity on failure. If `parameters_init` returns false then the matcher
accepted no entry of the general table and no entry of the offsets table, so that no
initializer fired, neither the general one, nor the base-offset one, nor the derived
one: both tables ran with count 0 and the store is the initial store. -/
theorem parameters_init_false_atomic (pm : Matcher) (p : Platform) (s t : Parameters)
    (h : parameters_init pm p s = .ok (false, t)) :
    t = s ∧
    (∀ e ∈ system_parameters ++ offsets, pm p e.devices e.builds = false) ∧
    ((system_parameters ++ offsets).filter fun e => pm p e.devices e.builds) = [] ∧
    run_initializations pm p system_parameters s = .ok (0, s) ∧
    run_initializations pm p offsets s = .ok (0, s) := by
  obtain ⟨hm, ht⟩ := parameters_init_false_inv pm p s t h
  obtain ⟨r1, r2, _⟩ := parameters_init_of_reject pm p s hm
  have hall : ∀ e ∈ system_parameters ++ offsets, pm p e.devices e.builds = false := by
    intro e he
    obtain ⟨hd, hb⟩ := tables_carry_wildcard e he
    rw [hd, hb, hm]
  refine ⟨ht, hall, ?_, r1, r2⟩
  rw [List.filter_eq_nil_iff]
  intro e he
  rw [hall e he]
  decide

/-- C14 under a matcher that accepts nothing, on the unknown platform, from the store
with sample sizes: the result is false and the store is the one the run started from. -/
theorem parameters_init_false_atomic_witness :
    parameters_init matches_nothing unknown_platform sample_store = .ok (false, sample_store) ∧
    run_initializations matches_nothing unknown_platform system_parameters sample_store
      = .ok (0, sample_store) ∧
    run_initializations matches_nothing unknown_platform offsets sample_store
      = .ok (0, sample_store) :=
  have h := parameters_init_false_atomic matches_nothing unknown_platform sample_store
    sample_store rfl
  ⟨rfl, h.2.2.2.1, h.2.2.2.2⟩

/-- C15. The match count `parameters_init` obtains from the offsets table is 0 or 2 and
never 1, both entries carrying the same pattern pair `("*", "*")`: it is 2 when the
matcher accepts that pair for the platform and 0 when it rejects it. Hence
`parameters_init` returns true if and only if the matcher accepts the pair. -/
theorem offsets_count_zero_or_two (pm : Matcher) (p : Platform) (s : Parameters) :
    (∀ e ∈ offsets, e.devices = "*" ∧ e.builds = "*") ∧
    ∃ c0 s1 count s2 b,
      run_initializations pm p system_parameters s = .ok (c0, s1) ∧
      run_initializations pm p offsets s1 = .ok (count, s2) ∧
      parameters_init pm p s = .ok (b, s2) ∧
      (count = 0 ∨ count = 2) ∧ count ≠ 1 ∧
      (count = 2 ↔ pm p "*" "*" = true) ∧ (count = 0 ↔ pm p "*" "*" = false) ∧
      (b = true ↔ pm p "*" "*" = true) := by
  refine ⟨fun e he => tables_carry_wildcard e (List.mem_append_right _ he), ?_⟩
  cases h : pm p "*" "*" with
  | false =>
    obtain ⟨r1, r2, r⟩ := parameters_init_of_reject pm p s h
    exact ⟨0, s, 0, s, false, r1, r2, r, Or.inl rfl, by decide, by decide, by decide,
      by decide⟩
  | true =>
    obtain ⟨s1, _, t, _, _, _, r1, r2, r⟩ := parameters_init_of_accept pm p s h
    exact ⟨1, s1, 2, t, true, r1, r2, r, Or.inr rfl, by decide, by decide, by decide,
      by decide⟩

/-- C16. Running `parameters_init` twice in succession returns the same boolean both
times, and the second run leaves the store the first one left: the final store after
two runs is the final store after one. -/
theorem parameters_init_idempotent (pm : Matcher) (p : Platform) (s : Parameters) :
    ∃ b t, parameters_init pm p s = .ok (b, t) ∧ parameters_init pm p t = .ok (b, t) := by
  cases h : pm p "*" "*" with
  | false =>
    obtain ⟨_, _, r⟩ := parameters_init_of_reject pm p s h
    exact ⟨false, s, r, r⟩
  | true =>
    obtain ⟨_, _, t, _, _, _, _, _, r⟩ := parameters_init_of_accept pm p s h
    obtain ⟨_, _, u, _, _, _, _, _, ru⟩ := parameters_init_of_accept pm p t h
    have e : u = t := parameters_init_true_unique pm pm p p s t t u r ru
    rw [e] at ru
    exact ⟨true, t, r, ru⟩

end GeoPatcher
